import Mathlib

/-!
Verification of the `pkg/gemini` core of shouni/go-gemini-client: the
error-classification engine (`shouldRetry`), the response extractor
(`extractTextFromResponse`), the seed conversion (`seedToPtrInt32`), and the
File API lifecycle (`UploadFile`, `DeleteFile`, `waitForFileActive`,
`asyncDelete`).  Go errors are modelled as an inductive chain type mirroring
the `errors.Is` / `errors.As` unwrap traversal; remote calls are oracles
passed in as functions; logging is modelled as returned lists of messages.
-/

namespace GoGemini

/-- gRPC status codes (`google.golang.org/grpc/codes`). -/
inductive Code where
  | ok
  | canceled
  | unknown
  | invalidArgument
  | deadlineExceeded
  | notFound
  | alreadyExists
  | permissionDenied
  | resourceExhausted
  | failedPrecondition
  | aborted
  | outOfRange
  | unimplemented
  | internal
  | unavailable
  | dataLoss
  | unauthenticated
deriving DecidableEq, Repr

/-- A Go error value, modelled as a wrap chain.  Constructors:
`apiResponse` is the package's `*APIResponseError`; `ctxCanceled` and
`ctxDeadlineExceeded` are the `context` sentinels; `eofErr` is `io.EOF`;
`netErr t o` is a value implementing `net.Error` with `Temporary() = t` and
`Timeout() = o`; `grpcStatus c` is a `*status.Error` (implements
`GRPCStatus()`, no `Unwrap`); `grpcStatusWrapping c inner` is a custom error
type that implements `GRPCStatus()` returning code `c` AND unwraps to
`inner` (legal in Go); `wrapf msg inner` is `fmt.Errorf("...: %w", inner)`;
`plain msg` is `errors.New(msg)` (this also covers `io.ErrUnexpectedEOF`,
which is a plain `errors.New("unexpected EOF")`). -/
inductive GoErr where
  | apiResponse (msg : String)
  | ctxCanceled
  | ctxDeadlineExceeded
  | eofErr
  | netErr (temporary timeout : Bool)
  | grpcStatus (code : Code)
  | grpcStatusWrapping (code : Code) (inner : GoErr)
  | wrapf (msg : String) (inner : GoErr)
  | plain (msg : String)
deriving DecidableEq, Repr

/-- Go `errors.As(err, &apiErr)` with `apiErr : *APIResponseError`:
walks the unwrap chain looking for an `APIResponseError`. -/
def errorsAsAPIResponseError : GoErr → Bool
  | .apiResponse _ => true
  | .wrapf _ inner => errorsAsAPIResponseError inner
  | .grpcStatusWrapping _ inner => errorsAsAPIResponseError inner
  | _ => false

/-- Go `errors.Is(err, context.Canceled)`: walks the unwrap chain. -/
def errorsIsCtxCanceled : GoErr → Bool
  | .ctxCanceled => true
  | .wrapf _ inner => errorsIsCtxCanceled inner
  | .grpcStatusWrapping _ inner => errorsIsCtxCanceled inner
  | _ => false

/-- Go `errors.Is(err, context.DeadlineExceeded)`: walks the unwrap chain. -/
def errorsIsCtxDeadlineExceeded : GoErr → Bool
  | .ctxDeadlineExceeded => true
  | .wrapf _ inner => errorsIsCtxDeadlineExceeded inner
  | .grpcStatusWrapping _ inner => errorsIsCtxDeadlineExceeded inner
  | _ => false

/-- Go `errors.Is(err, io.EOF)`: walks the unwrap chain. -/
def errorsIsEOF : GoErr → Bool
  | .eofErr => true
  | .wrapf _ inner => errorsIsEOF inner
  | .grpcStatusWrapping _ inner => errorsIsEOF inner
  | _ => false

/-- Go `errors.As(err, &netErr)` with `netErr : net.Error`: walks the
unwrap chain; yields `(Temporary(), Timeout())` of the first match. -/
def errorsAsNetError : GoErr → Option (Bool × Bool)
  | .netErr t o => some (t, o)
  | .wrapf _ inner => errorsAsNetError inner
  | .grpcStatusWrapping _ inner => errorsAsNetError inner
  | _ => none

/-- The `ok` branch of gRPC `status.FromError(err)`: `ok` is true when
`err` itself implements `GRPCStatus()`, or — since grpc-go v1.55, which
this repository's dependency set exceeds — when the `errors.As` fallback
finds an error implementing `GRPCStatus()` in the unwrap chain; the
returned status carries that error's code.  So a
`fmt.Errorf("...: %w", statusErr)` wrap still yields the wrapped code. -/
def statusFromError : GoErr → Option Code
  | .grpcStatus c => some c
  | .grpcStatusWrapping c _ => some c
  | .wrapf _ inner => statusFromError inner
  | _ => none

/-- `shouldRetry` from `utils.go`: decides whether an error is worth
retrying.  `none` models a nil Go error.  Mirrors the source's check order:
nil, `*APIResponseError`, context cancellation/deadline, gRPC status code
switch, `io.EOF`, `net.Error`, then a final `false`. -/
def shouldRetry (err : Option GoErr) : Bool :=
  match err with
  | none => false
  | some e =>
    if errorsAsAPIResponseError e then false
    else if errorsIsCtxCanceled e || errorsIsCtxDeadlineExceeded e then false
    else
      match statusFromError e with
      | some c =>
        match c with
        | .deadlineExceeded => true
        | .unavailable => true
        | .resourceExhausted => true
        | .internal => true
        | _ => false
      | none =>
        if errorsIsEOF e then true
        else
          match errorsAsNetError e with
          | some ne => ne.1 || ne.2
          | none => false

/-! Response extractor (`extractTextFromResponse`, `utils.go`). -/

/-- `genai.FinishReasonUnspecified`: the `genai.FinishReason` string enum. -/
def finishReasonUnspecified : String := "FINISH_REASON_UNSPECIFIED"

/-- `genai.FinishReasonStop` ("normal stop"). -/
def finishReasonStop : String := "STOP"

/-- `genai.FinishReasonSafety` (safety-filter block). -/
def finishReasonSafety : String := "SAFETY"

/-- `genai.Part`, restricted to its `Text` field (the only field the
extractor reads). -/
structure Part where
  text : String
deriving DecidableEq, Repr

/-- `genai.Content`, restricted to its `Parts` field. -/
structure Content where
  parts : List Part
deriving DecidableEq, Repr

/-- `genai.Candidate`: `FinishReason` (a string enum) and nilable `Content`. -/
structure Candidate where
  finishReason : String
  content : Option Content
deriving DecidableEq, Repr

/-- `genai.GenerateContentResponse`, restricted to `Candidates`. -/
structure GenerateContentResponse where
  candidates : List Candidate
deriving DecidableEq, Repr

/-- Message of the `*APIResponseError` built for a nil or candidate-less
response. -/
def emptyResponseMsg : String := "Gemini APIから空のレスポンスが返されました"

/-- Message of the `*APIResponseError` built for an abnormal finish reason:
`fmt.Sprintf("生成がブロックされました（理由: %v）", candidate.FinishReason)`. -/
def blockedMsg (reason : String) : String :=
  "生成がブロックされました（理由: " ++ reason ++ "）"

/-- The part-scanning loop of `extractTextFromResponse`: returns the first
part with non-empty `Text`, else the trailing `return "", nil` gives `""`. -/
def firstNonEmptyText : List Part → String
  | [] => ""
  | p :: rest => if p.text != "" then p.text else firstNonEmptyText rest

/-- `extractTextFromResponse` from `utils.go`.  `none` models a nil
`*genai.GenerateContentResponse`.  Mirrors the source: nil-or-empty
candidates check, finish-reason check on `Candidates[0]`, nil-or-empty
content check, then the part scan. -/
def extractTextFromResponse (resp : Option GenerateContentResponse) :
    String × Option GoErr :=
  match resp with
  | none => ("", some (.apiResponse emptyResponseMsg))
  | some r =>
    match r.candidates with
    | [] => ("", some (.apiResponse emptyResponseMsg))
    | candidate :: _ =>
      if candidate.finishReason != finishReasonUnspecified
          && candidate.finishReason != finishReasonStop then
        ("", some (.apiResponse (blockedMsg candidate.finishReason)))
      else
        match candidate.content with
        | none => ("", none)
        | some content =>
          if content.parts.isEmpty then ("", none)
          else (firstNonEmptyText content.parts, none)

/-! Seed conversion (`seedToPtrInt32`, `utils.go`) and the seed wiring of
`GenerateWithParts` (`client.go`). -/

/-- `math.MaxInt32`. -/
def maxInt32 : Int := 2147483647

/-- `math.MinInt32`. -/
def minInt32 : Int := -2147483648

/-- Go's `int32(v)` conversion on an `int64` value: two's-complement
wrap-around modulo `2^32`. -/
def int32Wrap (v : Int) : Int := (v + 2 ^ 31) % 2 ^ 32 - 2 ^ 31

/-- `seedToPtrInt32` from `utils.go`: converts `*int64` to `*int32`.
The second component records whether the out-of-range `slog.Warn` was
emitted (the function's only side effect).  Out of range yields `nil`
(seed discarded) plus the warning; in range yields the converted value
with no warning; nil input passes through. -/
def seedToPtrInt32 (s : Option Int) : Option Int × Bool :=
  match s with
  | none => (none, false)
  | some v =>
    if v > maxInt32 ∨ v < minInt32 then (none, true)
    else (some (int32Wrap v), false)

/-- The `Seed` field of the `genai.GenerateContentConfig` built by
`GenerateWithParts`: the field starts nil and is set to
`seedToPtrInt32(opts.Seed)` only when `opts.Seed != nil`. -/
def genConfigSeed (optsSeed : Option Int) : Option Int :=
  match optsSeed with
  | none => none
  | some _ => (seedToPtrInt32 optsSeed).1

/-! File API lifecycle (`file_api.go`).  Remote calls (`Files.Upload`,
`Files.Get`, `Files.Delete`) are oracles supplied as parameters; the
`select` loop of `waitForFileActive` consumes a list of the events that
fired, in order. -/

/-- `PollingTimeout = 60 * time.Second` from `types.go`, in time-units. -/
def PollingTimeout : Nat := 60

/-- `PollingInterval = 2 * time.Second` from `types.go`, in time-units. -/
def PollingInterval : Nat := 2

/-- `AsyncCleanupTimeout = 15 * time.Second` from `types.go`. -/
def AsyncCleanupTimeout : Nat := 15

/-- A `context.Context`, reduced to what the lifecycle code distinguishes:
whether it derives from `context.Background()` (rather than the caller's
context) and its timeout bound, if any. -/
structure GoContext where
  fromBackground : Bool
  timeout : Option Nat
deriving DecidableEq, Repr

/-- `context.Background()`. -/
def contextBackground : GoContext := { fromBackground := true, timeout := none }

/-- `context.WithTimeout(c, d)` (the derived context keeps its parent's
provenance and gains the bound `d`). -/
def contextWithTimeout (c : GoContext) (d : Nat) : GoContext :=
  { c with timeout := some d }

/-- `genai.FileState` as observed by the poll loop: `Active`, `Failed`,
`Processing`, or any other/unknown state string. -/
inductive FileState where
  | active
  | failed
  | processing
  | other (s : String)
deriving DecidableEq, Repr

/-- The fields of the `*genai.File` returned by `Files.Get` that
`waitForFileActive` reads. -/
structure FileInfo where
  state : FileState
  uri : String
deriving DecidableEq, Repr

/-- The fields of the `*genai.File` returned by `Files.Upload` that
`UploadFile` reads. -/
structure RemoteFile where
  name : String
deriving DecidableEq, Repr

/-- Decidable equality for `Except`, needed to derive it for `PollEvent`. -/
instance {ε α : Type} [DecidableEq ε] [DecidableEq α] :
    DecidableEq (Except ε α) := fun a b =>
  match a, b with
  | .ok x, .ok y =>
    decidable_of_iff (x = y) ⟨fun h => by rw [h], fun h => by cases h; rfl⟩
  | .error x, .error y =>
    decidable_of_iff (x = y) ⟨fun h => by rw [h], fun h => by cases h; rfl⟩
  | .ok _, .error _ => isFalse (fun h => by cases h)
  | .error _, .ok _ => isFalse (fun h => by cases h)

/-- One firing of the `select` in `waitForFileActive`: the caller's
`ctx.Done()` (carrying `ctx.Err()`), the absolute timeout channel, or a
ticker tick whose `Files.Get` call returned the given result. -/
inductive PollEvent where
  | ctxDone (ctxErr : GoErr)
  | timeoutFired
  | tick (result : Except GoErr FileInfo)
deriving DecidableEq, Repr

/-- Error message for the `ctx.Done()` exit of `waitForFileActive`
(wrapped around `ctx.Err()` with `%w`). -/
def waitCanceledMsg (fileName : String) : String :=
  "ファイル \"" ++ fileName ++ "\" の待機中にコンテキストがキャンセルされました"

/-- Error message for the absolute-timeout exit of `waitForFileActive`,
naming the resource and the `PollingTimeout` bound. -/
def waitTimeoutMsg (fileName : String) : String :=
  "ファイル \"" ++ fileName ++ "\" の処理が制限時間（" ++ toString PollingTimeout
    ++ "）内に完了しませんでした"

/-- Error message for a failed `Files.Get` status check (wrapped with `%w`). -/
def statusCheckFailMsg (fileName : String) : String :=
  "ファイル \"" ++ fileName ++ "\" のステータス確認に失敗しました"

/-- Error message for the server-reported `FileStateFailed` terminal state. -/
def serverFailedMsg (fileName : String) : String :=
  "サーバー側でのファイル処理に失敗しました: \"" ++ fileName ++ "\""

/-- `waitForFileActive` from `file_api.go`, over the sequence of select
events that fire.  `none` means the loop is still polling when the event
trace ends (the Go loop would still be blocked).  `ctx.Done()` and the
timeout channel end the loop with errors; a tick whose status check fails
ends it; a tick reporting `Active` returns the URI; `Failed` is fatal;
`Processing` and unknown states (logged) continue the loop. -/
def waitForFileActive (fileName : String) :
    List PollEvent → Option (Except GoErr String)
  | [] => none
  | .ctxDone ctxErr :: _ =>
    some (.error (.wrapf (waitCanceledMsg fileName) ctxErr))
  | .timeoutFired :: _ => some (.error (.plain (waitTimeoutMsg fileName)))
  | .tick (.error e) :: _ =>
    some (.error (.wrapf (statusCheckFailMsg fileName) e))
  | .tick (.ok f) :: rest =>
    match f.state with
    | .active => some (.ok f.uri)
    | .failed => some (.error (.plain (serverFailedMsg fileName)))
    | .processing => waitForFileActive fileName rest
    | .other _ => waitForFileActive fileName rest

/-- Error message wrapped around a failed `Files.Delete` in `DeleteFile`,
naming the resource (`fmt.Errorf("ファイル %q の削除に失敗しました: %w", ...)`). -/
def deleteFailMsg (fileName : String) : String :=
  "ファイル \"" ++ fileName ++ "\" の削除に失敗しました"

/-- `DeleteFile` from `file_api.go`.  `remoteDelete` is the `Files.Delete`
oracle.  Returns the error result together with the number of remote
delete calls issued.  An empty name short-circuits to success with no
remote call; a failed remote delete is wrapped with the resource name. -/
def DeleteFile (remoteDelete : GoContext → String → Option GoErr)
    (ctx : GoContext) (fileName : String) : Option GoErr × Nat :=
  if fileName = "" then (none, 0)
  else
    match remoteDelete ctx fileName with
    | some e => (some (.wrapf (deleteFailMsg fileName) e), 1)
    | none => (none, 1)

/-- Warning logged by `asyncDelete` when the background cleanup fails
(`slog.Warn("バックグラウンドでのファイルクリーンアップに失敗しました", ...)`). -/
def asyncCleanupFailMsg (fileName : String) : String :=
  "バックグラウンドでのファイルクリーンアップに失敗しました: " ++ fileName

/-- The observable outcome of the goroutine spawned by `asyncDelete`:
the context it performed the delete under, the error it surfaced to the
caller of `asyncDelete` (the goroutine returns nothing, so always `none`),
and the warnings it logged. -/
structure AsyncDeleteRun where
  usedCtx : GoContext
  callerErr : Option GoErr
  loggedWarnings : List String
deriving DecidableEq, Repr

/-- `asyncDelete` from `file_api.go`: background best-effort cleanup.
The goroutine body builds a fresh
`context.WithTimeout(context.Background(), AsyncCleanupTimeout)` — note
that `asyncDelete` takes no caller context at all — runs `DeleteFile`
under it, and logs (never returns) any failure. -/
def asyncDelete (remoteDelete : GoContext → String → Option GoErr)
    (fileName : String) : AsyncDeleteRun :=
  let ctx := contextWithTimeout contextBackground AsyncCleanupTimeout
  match (DeleteFile remoteDelete ctx fileName).1 with
  | some _ =>
    { usedCtx := ctx, callerErr := none
      loggedWarnings := [asyncCleanupFailMsg fileName] }
  | none => { usedCtx := ctx, callerErr := none, loggedWarnings := [] }

/-- Error message wrapped around the upload-call failure in `UploadFile`. -/
def uploadFailMsg : String := "Gemini File API へのアップロードに失敗しました"

/-- Error message wrapped around a poll-phase failure in `UploadFile`,
naming the assigned remote name. -/
def waitWrapMsg (fileName : String) : String :=
  "ファイル \"" ++ fileName ++ "\" が有効状態になるまでの待機中にエラーが発生しました"

/-- The remote-call environment of one `UploadFile` call: the result of
`Files.Upload`, and, per file name, the select events the poll loop of
`waitForFileActive` observes. -/
structure UploadEnv where
  uploadResult : Except GoErr RemoteFile
  pollEvents : String → List PollEvent

/-- The observable outcome of one `UploadFile` call: the returned
`(uri, name, err)` triple plus the names handed to `asyncDelete`. -/
structure UploadOutcome where
  uri : String
  name : String
  err : Option GoErr
  asyncDeletes : List String
deriving DecidableEq, Repr

/-- `UploadFile` from `file_api.go`: upload, then wait for `Active`.
`none` means the poll loop never terminated on the given trace.  An
upload-call failure returns immediately, wrapped, with no cleanup; a
poll-phase failure triggers `asyncDelete(file.Name)` and returns the
error wrapped with the name; success returns `(uri, name, nil)`. -/
def UploadFile (env : UploadEnv) : Option UploadOutcome :=
  match env.uploadResult with
  | .error e =>
    some { uri := "", name := "", err := some (.wrapf uploadFailMsg e)
           asyncDeletes := [] }
  | .ok file =>
    match waitForFileActive file.name (env.pollEvents file.name) with
    | none => none
    | some (.error e) =>
      some { uri := "", name := ""
             err := some (.wrapf (waitWrapMsg file.name) e)
             asyncDeletes := [file.name] }
    | some (.ok uri) =>
      some { uri := uri, name := file.name, err := none, asyncDeletes := [] }

/-! Helper lemmas. -/

/-- The part-scanning loop returns exactly the text of the first part whose
text is non-empty, and `""` when there is none. -/
theorem firstNonEmptyText_eq_find (l : List Part) :
    firstNonEmptyText l =
      ((l.find? fun p => p.text != "").map Part.text).getD "" := by
  induction l with
  | nil => rfl
  | cons p rest ih =>
    by_cases h : p.text = ""
    · simp [firstNonEmptyText, List.find?_cons, h, ih]
    · simp [firstNonEmptyText, List.find?_cons, h]

/-! Claim theorems. -/

/-- C2: every `LogicalAPIError` (`APIResponseError`) and every error
matching caller cancellation or caller deadline expiry is classified as
not retryable by `shouldRetry`; the statements are unconditional in the
error, so they hold even for errors that also carry a retryable transport
status code (precedence of checks 1 and 2 over check 3). -/
theorem c2_classifier_precedence (e : GoErr) :
    (errorsAsAPIResponseError e = true → shouldRetry (some e) = false) ∧
    (errorsIsCtxCanceled e = true ∨ errorsIsCtxDeadlineExceeded e = true →
      shouldRetry (some e) = false) := by
  constructor
  · intro h
    simp [shouldRetry, h]
  · intro h
    cases hA : errorsAsAPIResponseError e
    · rcases h with h | h <;> simp [shouldRetry, hA, h]
    · simp [shouldRetry, hA]

/-- Witness for C2: a custom error that both unwraps to `context.Canceled`
and directly carries the retryable status code `Unavailable` is still not
retried — cancellation overrides the status classification. -/
theorem c2_classifier_precedence_witness :
    errorsIsCtxCanceled (.grpcStatusWrapping .unavailable .ctxCanceled) = true ∧
    statusFromError (.grpcStatusWrapping .unavailable .ctxCanceled) =
      some .unavailable ∧
    shouldRetry (some (.grpcStatusWrapping .unavailable .ctxCanceled)) = false :=
  ⟨by decide, by decide,
    (c2_classifier_precedence (.grpcStatusWrapping .unavailable .ctxCanceled)).2
      (Or.inl (by decide))⟩

/-- C3 counterexample: an error that carries the structured transport
status `Unavailable` (a retryable code) yet is classified not retryable,
because it also unwraps to `context.Canceled` and the cancellation check
runs first.  This refutes the claim as stated ("for every error carrying
a structured transport status code ... returns true exactly when the code
is one of ..."). -/
theorem c3_status_counterexample :
    statusFromError (.grpcStatusWrapping .unavailable .ctxCanceled) =
      some .unavailable ∧
    shouldRetry (some (.grpcStatusWrapping .unavailable .ctxCanceled)) = false := by
  decide

/-- C3 (amended): for every error carrying a structured transport status
code that does not also match an earlier check (`LogicalAPIError`, caller
cancellation, caller deadline), `shouldRetry` returns true exactly when
the code is server Deadline-exceeded, Unavailable, Resource-exhausted, or
Internal, and false for every other code. -/
theorem c3_status_code_classification (e : GoErr) (c : Code)
    (hs : statusFromError e = some c)
    (hA : errorsAsAPIResponseError e = false)
    (hC : errorsIsCtxCanceled e = false)
    (hD : errorsIsCtxDeadlineExceeded e = false) :
    shouldRetry (some e) = true ↔
      (c = .deadlineExceeded ∨ c = .unavailable ∨ c = .resourceExhausted ∨
        c = .internal) := by
  simp only [shouldRetry, hA, hC, hD, hs, Bool.false_eq_true, if_false,
    Bool.or_self]
  cases c <;> simp

/-- Witness for C3 (amended): a direct `Unavailable` status error is
retried, a `NotFound` one is not, and a status error wrapped with
`fmt.Errorf("...: %w", ...)` still carries its code through
`status.FromError`'s unwrap search and is retried. -/
theorem c3_status_code_classification_witness :
    shouldRetry (some (.grpcStatus .unavailable)) = true ∧
    shouldRetry (some (.grpcStatus .notFound)) = false ∧
    shouldRetry (some (.wrapf "call failed" (.grpcStatus .unavailable))) =
      true := by
  refine ⟨?_, ?_, ?_⟩
  · exact (c3_status_code_classification (.grpcStatus .unavailable)
      .unavailable rfl rfl rfl rfl).2 (Or.inr (Or.inl rfl))
  · cases hb : shouldRetry (some (.grpcStatus .notFound))
    · rfl
    · exact absurd ((c3_status_code_classification (.grpcStatus .notFound)
        .notFound rfl rfl rfl rfl).1 hb) (by decide)
  · exact (c3_status_code_classification
      (.wrapf "call failed" (.grpcStatus .unavailable))
      .unavailable rfl rfl rfl rfl).2 (Or.inr (Or.inl rfl))

/-- C4 counterexample: two transport errors with no structured status that
are neither `LogicalAPIError` nor cancellation, yet are NOT retried: a
`net.Error` reporting neither `Temporary()` nor `Timeout()` (a permanent
connection failure), and `io.ErrUnexpectedEOF` (a premature stream end,
which is a plain error — it is not `io.EOF` and not a `net.Error`), for
which `shouldRetry` falls through to its final `return false`. -/
theorem c4_unstructured_counterexample :
    (statusFromError (GoErr.netErr false false) = none ∧
      errorsAsAPIResponseError (GoErr.netErr false false) = false ∧
      errorsIsCtxCanceled (GoErr.netErr false false) = false ∧
      errorsIsCtxDeadlineExceeded (GoErr.netErr false false) = false ∧
      shouldRetry (some (GoErr.netErr false false)) = false) ∧
    (statusFromError (GoErr.plain "unexpected EOF") = none ∧
      errorsAsAPIResponseError (GoErr.plain "unexpected EOF") = false ∧
      errorsIsCtxCanceled (GoErr.plain "unexpected EOF") = false ∧
      shouldRetry (some (GoErr.plain "unexpected EOF")) = false) := by
  decide

/-- C4 (amended): among transport errors without a structured status that
match no earlier check, exactly these are retried: an error matching
`io.EOF`, and a `net.Error` for which `Temporary()` or `Timeout()` holds;
every other such error (including a non-temporary, non-timeout `net.Error`
and any plain error) is not retried. -/
theorem c4_unstructured_classification (e : GoErr)
    (hs : statusFromError e = none)
    (hA : errorsAsAPIResponseError e = false)
    (hC : errorsIsCtxCanceled e = false)
    (hD : errorsIsCtxDeadlineExceeded e = false) :
    (errorsIsEOF e = true → shouldRetry (some e) = true) ∧
    (∀ t o, errorsIsEOF e = false → errorsAsNetError e = some (t, o) →
      shouldRetry (some e) = (t || o)) ∧
    (errorsIsEOF e = false → errorsAsNetError e = none →
      shouldRetry (some e) = false) := by
  refine ⟨?_, ?_, ?_⟩
  · intro h
    simp [shouldRetry, hA, hC, hD, hs, h]
  · intro t o hEof hNet
    simp [shouldRetry, hA, hC, hD, hs, hEof, hNet]
  · intro hEof hNet
    simp [shouldRetry, hA, hC, hD, hs, hEof, hNet]

/-- Witness for C4 (amended): `io.EOF` is retried, and a timing-out
`net.Error` is retried. -/
theorem c4_unstructured_classification_witness :
    shouldRetry (some GoErr.eofErr) = true ∧
    shouldRetry (some (GoErr.netErr false true)) = true :=
  ⟨(c4_unstructured_classification .eofErr rfl rfl rfl rfl).1 rfl,
    by simpa using
      (c4_unstructured_classification (.netErr false true) rfl rfl rfl rfl).2.1
        false true rfl rfl⟩

/-- C5: `extractTextFromResponse` returns a `LogicalAPIError`
(`APIResponseError`) exactly when the response has zero candidates (the
"empty response" error) or the first candidate's finish reason is neither
unspecified nor normal stop (an error whose message names the abnormal
reason, via `blockedMsg`); in every other case the error component is nil. -/
theorem c5_extractor_error_cases (r : GenerateContentResponse) :
    (r.candidates = [] →
      extractTextFromResponse (some r) =
        ("", some (.apiResponse emptyResponseMsg))) ∧
    (∀ cand rest, r.candidates = cand :: rest →
      (cand.finishReason != finishReasonUnspecified &&
        cand.finishReason != finishReasonStop) = true →
      extractTextFromResponse (some r) =
        ("", some (.apiResponse (blockedMsg cand.finishReason)))) ∧
    (∀ cand rest, r.candidates = cand :: rest →
      (cand.finishReason != finishReasonUnspecified &&
        cand.finishReason != finishReasonStop) = false →
      (extractTextFromResponse (some r)).2 = none) := by
  refine ⟨?_, ?_, ?_⟩
  · intro h
    simp [extractTextFromResponse, h]
  · intro cand rest h hb
    simp [extractTextFromResponse, h, hb]
  · intro cand rest h hb
    simp only [extractTextFromResponse, h, hb, Bool.false_eq_true, if_false]
    cases hc : cand.content with
    | none => rfl
    | some content =>
      by_cases hp : content.parts.isEmpty <;> simp [hp]

/-- Witness for C5: a candidate-less response yields the empty-response
error, and a response whose first candidate finished with reason "SAFETY"
yields an error whose message names that reason. -/
theorem c5_extractor_error_cases_witness :
    extractTextFromResponse (some ⟨[]⟩) =
      ("", some (.apiResponse emptyResponseMsg)) ∧
    extractTextFromResponse (some ⟨[⟨finishReasonSafety, none⟩]⟩) =
      ("", some (.apiResponse (blockedMsg finishReasonSafety))) ∧
    (extractTextFromResponse (some ⟨[⟨finishReasonStop, none⟩]⟩)).2 = none :=
  ⟨(c5_extractor_error_cases ⟨[]⟩).1 rfl,
    (c5_extractor_error_cases ⟨[⟨finishReasonSafety, none⟩]⟩).2.1
      ⟨finishReasonSafety, none⟩ [] rfl (by decide),
    (c5_extractor_error_cases ⟨[⟨finishReasonStop, none⟩]⟩).2.2
      ⟨finishReasonStop, none⟩ [] rfl (by decide)⟩

/-- C6: for a first candidate with a normal finish reason (unspecified or
normal stop) the extractor never errors, and its text result is exactly
the text of the first part with non-empty text (or `""` when the content
is nil, has zero parts, or has no non-empty text part); in particular a
single candidate with parts `[textPart "hello"]` extracts to
`("hello", nil)`. -/
theorem c6_extractor_normal_path :
    (∀ (r : GenerateContentResponse) cand rest,
      r.candidates = cand :: rest →
      (cand.finishReason = finishReasonUnspecified ∨
        cand.finishReason = finishReasonStop) →
      (extractTextFromResponse (some r)).2 = none ∧
      (extractTextFromResponse (some r)).1 =
        (match cand.content with
         | none => ""
         | some ct =>
           (((ct.parts.find? fun p => p.text != "").map Part.text).getD ""))) ∧
    extractTextFromResponse
        (some ⟨[⟨finishReasonStop, some ⟨[⟨"hello"⟩]⟩⟩]⟩) =
      ("hello", none) := by
  constructor
  · intro r cand rest h hOr
    have hb : (cand.finishReason != finishReasonUnspecified &&
        cand.finishReason != finishReasonStop) = false := by
      rcases hOr with h1 | h1 <;> simp [h1]
    simp only [extractTextFromResponse, h, hb, Bool.false_eq_true, if_false]
    cases hc : cand.content with
    | none => exact ⟨rfl, rfl⟩
    | some content =>
      by_cases hp : content.parts.isEmpty
      · have : content.parts = [] := List.isEmpty_iff.mp hp
        simp [hp, this]
      · simp [hp, firstNonEmptyText_eq_find]
  · rfl

/-- Witness for C6: the "hello" round-trip, and an unspecified-reason
candidate with empty content parts extracting to `("", nil)`. -/
theorem c6_extractor_normal_path_witness :
    extractTextFromResponse
        (some ⟨[⟨finishReasonStop, some ⟨[⟨"hello"⟩]⟩⟩]⟩) = ("hello", none) ∧
    (extractTextFromResponse (some ⟨[⟨finishReasonUnspecified, some ⟨[]⟩⟩]⟩)).2 =
      none :=
  ⟨c6_extractor_normal_path.2,
    (c6_extractor_normal_path.1 ⟨[⟨finishReasonUnspecified, some ⟨[]⟩⟩]⟩
      ⟨finishReasonUnspecified, some ⟨[]⟩⟩ [] rfl (Or.inl rfl)).1⟩

/-- C10: a nil response pointer and a response with zero candidates take
the same branch of `extractTextFromResponse` and return the identical
`("", empty-response LogicalAPIError)` pair — no crash — and that error
is classified not retryable by `shouldRetry`. -/
theorem c10_nil_response :
    extractTextFromResponse none = extractTextFromResponse (some ⟨[]⟩) ∧
    extractTextFromResponse none =
      ("", some (.apiResponse emptyResponseMsg)) ∧
    shouldRetry (some (.apiResponse emptyResponseMsg)) = false :=
  ⟨rfl, rfl, by simp [shouldRetry, errorsAsAPIResponseError]⟩

/-- C9: a configured seed above `math.MaxInt32` or below `math.MinInt32`
is discarded — `seedToPtrInt32` returns nil with the warning logged, and
the generation config built by `GenerateWithParts` carries no seed — with
no error anywhere; a seed within the signed 32-bit range is passed
through with its value preserved (the `int32` conversion is the identity
there) and ends up in the generation config. -/
theorem c9_seed_conversion :
    (∀ v : Int, (v > maxInt32 ∨ v < minInt32) →
      seedToPtrInt32 (some v) = (none, true) ∧ genConfigSeed (some v) = none) ∧
    (∀ v : Int, minInt32 ≤ v → v ≤ maxInt32 →
      seedToPtrInt32 (some v) = (some v, false) ∧
        genConfigSeed (some v) = some v) := by
  constructor
  · intro v hv
    have h1 : seedToPtrInt32 (some v) = (none, true) := by
      simp [seedToPtrInt32, hv]
    exact ⟨h1, by simp [genConfigSeed, h1]⟩
  · intro v h1 h2
    have hno : ¬(v > maxInt32 ∨ v < minInt32) := by
      push_neg
      exact ⟨h2, h1⟩
    have hwrap : int32Wrap v = v := by
      unfold int32Wrap
      unfold maxInt32 at h2
      unfold minInt32 at h1
      omega
    have hs : seedToPtrInt32 (some v) = (some v, false) := by
      simp [seedToPtrInt32, hno, hwrap]
    exact ⟨hs, by simp [genConfigSeed, hs]⟩

/-- Witness for C9: seed `2^31` (one above the signed 32-bit maximum) is
dropped with the warning and the config carries no seed; seed `42` is
preserved. -/
theorem c9_seed_conversion_witness :
    seedToPtrInt32 (some (2 ^ 31)) = (none, true) ∧
    genConfigSeed (some (2 ^ 31)) = none ∧
    seedToPtrInt32 (some 42) = (some 42, false) :=
  ⟨(c9_seed_conversion.1 (2 ^ 31) (Or.inl (by norm_num [maxInt32]))).1,
    (c9_seed_conversion.1 (2 ^ 31) (Or.inl (by norm_num [maxInt32]))).2,
    (c9_seed_conversion.2 42 (by norm_num [minInt32]) (by norm_num [maxInt32])).1⟩

/-- C1: when the remote upload succeeds (a remote name is assigned) but
the poll phase ends in an error, `UploadFile` hands exactly that name to
`asyncDelete` and returns the error wrapped with the name; when the
upload call itself fails, it returns the wrapped error immediately with
no delete issued (and on full success nothing is deleted either).  The
final conjuncts show that each poll-phase failure kind — caller
cancellation, poll timeout, a status-check failure, and the
server-reported `Failed` state — indeed ends `waitForFileActive` with an
error. -/
theorem c1_upload_cleanup (env : UploadEnv) :
    (∀ e, env.uploadResult = .error e →
      UploadFile env =
        some { uri := "", name := "", err := some (.wrapf uploadFailMsg e)
               asyncDeletes := [] }) ∧
    (∀ f e, env.uploadResult = .ok f →
      waitForFileActive f.name (env.pollEvents f.name) = some (.error e) →
      UploadFile env =
        some { uri := "", name := ""
               err := some (.wrapf (waitWrapMsg f.name) e)
               asyncDeletes := [f.name] }) ∧
    (∀ f uri, env.uploadResult = .ok f →
      waitForFileActive f.name (env.pollEvents f.name) = some (.ok uri) →
      UploadFile env =
        some { uri := uri, name := f.name, err := none, asyncDeletes := [] }) ∧
    (∀ name ce evs, waitForFileActive name (.ctxDone ce :: evs) =
      some (.error (.wrapf (waitCanceledMsg name) ce))) ∧
    (∀ name evs, waitForFileActive name (.timeoutFired :: evs) =
      some (.error (.plain (waitTimeoutMsg name)))) ∧
    (∀ name e evs, waitForFileActive name (.tick (.error e) :: evs) =
      some (.error (.wrapf (statusCheckFailMsg name) e))) ∧
    (∀ name uri evs, waitForFileActive name
        (.tick (.ok { state := .failed, uri := uri }) :: evs) =
      some (.error (.plain (serverFailedMsg name)))) := by
  refine ⟨?_, ?_, ?_, ?_, ?_, ?_, ?_⟩
  · intro e h
    simp [UploadFile, h]
  · intro f e h hw
    simp [UploadFile, h, hw]
  · intro f uri h hw
    simp [UploadFile, h, hw]
  · intro name ce evs
    rfl
  · intro name evs
    rfl
  · intro name e evs
    rfl
  · intro name uri evs
    rfl

/-- Environment for the C1 witness: the upload call itself fails. -/
def envUploadFail : UploadEnv :=
  { uploadResult := .error (.plain "boom"), pollEvents := fun _ => [] }

/-- Environment for the C1 witness: upload succeeds, then the poll phase
times out after two `Processing` ticks. -/
def envPollTimeout : UploadEnv :=
  { uploadResult := .ok { name := "files/abc" }
    pollEvents := fun _ =>
      [.tick (.ok { state := .processing, uri := "" }),
       .tick (.ok { state := .processing, uri := "" }),
       .timeoutFired] }

/-- Witness for C1: a failing upload returns the wrapped error with no
cleanup; a timed-out poll returns the wrapped timeout error and hands the
assigned name to `asyncDelete`. -/
theorem c1_upload_cleanup_witness :
    UploadFile envUploadFail =
      some { uri := "", name := ""
             err := some (.wrapf uploadFailMsg (.plain "boom"))
             asyncDeletes := [] } ∧
    UploadFile envPollTimeout =
      some { uri := "", name := ""
             err := some (.wrapf (waitWrapMsg "files/abc")
               (.plain (waitTimeoutMsg "files/abc")))
             asyncDeletes := ["files/abc"] } :=
  ⟨(c1_upload_cleanup envUploadFail).1 (.plain "boom") rfl,
    (c1_upload_cleanup envPollTimeout).2.1 { name := "files/abc" }
      (.plain (waitTimeoutMsg "files/abc")) rfl rfl⟩

/-- C7: `asyncDelete` always performs the delete under the context
`context.WithTimeout(context.Background(), AsyncCleanupTimeout)` — a
fresh background-derived scope with the fixed 15-unit cleanup bound,
independent of any caller context (`asyncDelete` does not even receive
one) — it never surfaces an error to its caller, and a failing delete is
recorded only in the log. -/
theorem c7_async_delete_scope
    (remoteDelete : GoContext → String → Option GoErr) (fileName : String) :
    (asyncDelete remoteDelete fileName).usedCtx =
      contextWithTimeout contextBackground AsyncCleanupTimeout ∧
    (asyncDelete remoteDelete fileName).usedCtx.fromBackground = true ∧
    (asyncDelete remoteDelete fileName).usedCtx.timeout = some 15 ∧
    (asyncDelete remoteDelete fileName).callerErr = none ∧
    ((DeleteFile remoteDelete
        (contextWithTimeout contextBackground AsyncCleanupTimeout)
        fileName).1.isSome = true →
      (asyncDelete remoteDelete fileName).loggedWarnings =
        [asyncCleanupFailMsg fileName]) := by
  refine ⟨?_, ?_, ?_, ?_, ?_⟩ <;>
    · intros
      unfold asyncDelete
      dsimp only
      split <;>
        simp_all [contextWithTimeout, contextBackground, AsyncCleanupTimeout]

/-- Witness for C7: with a remote delete that always fails, the cleanup
runs under the fresh 15-unit background scope, logs the failure, and
still surfaces no error. -/
theorem c7_async_delete_scope_witness :
    (asyncDelete (fun _ _ => some (.plain "gone")) "files/abc").usedCtx =
      { fromBackground := true, timeout := some 15 } ∧
    (asyncDelete (fun _ _ => some (.plain "gone")) "files/abc").callerErr =
      none ∧
    (asyncDelete (fun _ _ => some (.plain "gone")) "files/abc").loggedWarnings =
      [asyncCleanupFailMsg "files/abc"] :=
  ⟨(c7_async_delete_scope (fun _ _ => some (.plain "gone")) "files/abc").1,
    (c7_async_delete_scope (fun _ _ => some (.plain "gone")) "files/abc").2.2.2.1,
    (c7_async_delete_scope (fun _ _ => some (.plain "gone")) "files/abc").2.2.2.2
      rfl⟩

/-- C8: `DeleteFile` with an empty name returns nil with zero remote
delete calls issued; with a non-empty name it issues exactly one remote
delete and, when that fails, propagates the error wrapped with the
resource name (and returns nil on success). -/
theorem c8_delete_file
    (remoteDelete : GoContext → String → Option GoErr) (ctx : GoContext) :
    DeleteFile remoteDelete ctx "" = (none, 0) ∧
    (∀ name, name ≠ "" → (DeleteFile remoteDelete ctx name).2 = 1) ∧
    (∀ name e, name ≠ "" → remoteDelete ctx name = some e →
      DeleteFile remoteDelete ctx name =
        (some (.wrapf (deleteFailMsg name) e), 1)) ∧
    (∀ name, name ≠ "" → remoteDelete ctx name = none →
      DeleteFile remoteDelete ctx name = (none, 1)) := by
  refine ⟨rfl, ?_, ?_, ?_⟩
  · intro name hn
    cases h : remoteDelete ctx name <;> simp [DeleteFile, hn, h]
  · intro name e hn h
    simp [DeleteFile, hn, h]
  · intro name hn h
    simp [DeleteFile, hn, h]

/-- Witness for C8: concrete empty-name no-op, a wrapped failure for
`"files/abc"`, and a successful delete. -/
theorem c8_delete_file_witness :
    DeleteFile (fun _ _ => some (.plain "gone")) contextBackground "" =
      (none, 0) ∧
    DeleteFile (fun _ _ => some (.plain "gone")) contextBackground
        "files/abc" =
      (some (.wrapf (deleteFailMsg "files/abc") (.plain "gone")), 1) ∧
    DeleteFile (fun _ _ => none) contextBackground "files/abc" = (none, 1) :=
  ⟨(c8_delete_file (fun _ _ => some (.plain "gone")) contextBackground).1,
    (c8_delete_file (fun _ _ => some (.plain "gone")) contextBackground).2.2.1
      "files/abc" (.plain "gone") (by decide) rfl,
    (c8_delete_file (fun _ _ => none) contextBackground).2.2.2
      "files/abc" (by decide) rfl⟩

end GoGemini
